import Mathlib

/-!
Verification of the serialpcap capture tool against its design notes.

The definitions below are a shallow embedding of the Rust sources:

* `src/portinfo.rs` — `PortControlLines`, the `SerialReflectorPort` and the
  blanket `AdvancedSerialPort` implementations of `SerialReflection`
  (`capture_control_lines`, `reflect_control_lines`), and the GPIO-augmented
  `SerialPortWrapper` with its locally cached last-commanded RTS/DTR values.
* `src/state.rs` — `SerialEvent` and `SerialEvent.is_insignificant`.
* `src/datalink.rs` — `raw_encapsulate`, `rtac_encapsulate` and
  `get_encapsulated_data`.
* `src/main.rs` — `CaptureSerial.capture_packet` (the idle-gap frame
  assembler) and the forwarding decision of `CaptureSerial.capture`.

Machine integers are modelled as `Nat` with explicit reductions modulo 2^32
where the code truncates (`to_le_bytes()[..4]`).  Fallible operations return
`Except`.  Hardware outcomes (UART reads/writes, GPIO writes, bytes made
available by the OS read call) are passed in as explicit parameters, so every
definition is a pure, executable function of its inputs.
-/

namespace SerialPcap

/-- Control-line snapshot, from `PortControlLines` in `src/portinfo.rs`
(fields in source order: dsr, cts, cd, ri, dtr, rts). -/
structure PortControlLines where
  dsr : Bool
  cts : Bool
  cd : Bool
  ri : Bool
  dtr : Bool
  rts : Bool
deriving DecidableEq, Repr

/-- `PortControlLines::new` in `src/portinfo.rs`: all six lines false. -/
def PortControlLines.new : PortControlLines :=
  { dsr := false, cts := false, cd := false, ri := false, dtr := false, rts := false }

/-- Event timestamp: a non-negative chrono `DateTime<Utc>` is represented by
its whole seconds since epoch and its microsecond-of-second component. -/
structure Timestamp where
  sec : Nat
  usec : Nat
deriving DecidableEq, Repr

/-- chrono `DateTime::timestamp()`: whole seconds since epoch. -/
def Timestamp.timestamp (t : Timestamp) : Nat := t.sec

/-- chrono `DateTime::timestamp_micros()`: total microseconds since epoch. -/
def Timestamp.timestamp_micros (t : Timestamp) : Nat := t.sec * 1000000 + t.usec

/-- `SerialEvent` from `src/state.rs`: timestamp, payload bytes, control-line
snapshot at capture time.  Bytes are modelled as `Nat`. -/
structure SerialEvent where
  timestamp : Timestamp
  data : List Nat
  control_lines : PortControlLines
deriving DecidableEq, Repr

/-- `SerialEvent::is_insignificant` from `src/state.rs`: the event has an
empty payload and its control lines equal the given line status. -/
def SerialEvent.is_insignificant (e : SerialEvent) (line_status : PortControlLines) : Bool :=
  e.data.isEmpty && decide (e.control_lines = line_status)

/-- The forwarding decision of the capture loop in `CaptureSerial::capture`
(`src/main.rs` lines 145-176): a captured packet is encoded and written to
the pcap sink exactly when it is non-empty (`if packet.is_empty { continue }`);
control lines are never consulted there. -/
def capture_forwards (packet : List Nat) : Bool :=
  !packet.isEmpty

/-! ## Encapsulation codecs (`src/datalink.rs`) -/

/-- Little-endian byte serialisation of the low 32 bits of a natural number,
as produced by Rust `to_le_bytes()[..4]` on a non-negative value. -/
def u32_le_bytes (n : Nat) : List Nat :=
  [n % 256, n / 256 % 256, n / 65536 % 256, n / 16777216 % 256]

/-- Control-line flag byte built in `rtac_encapsulate` (`src/datalink.rs`
lines 73-82): bit0 CTS, bit1 CD, bit2 DSR, bit3 RTS, bit4 DTR, bit5 RI. -/
def control_flags (l : PortControlLines) : Nat :=
  let f0 := if l.cts then 0x01 else 0
  let f1 := if l.cd then f0 ||| 0x02 else f0
  let f2 := if l.dsr then f1 ||| 0x04 else f1
  let f3 := if l.rts then f2 ||| 0x08 else f2
  let f4 := if l.dtr then f3 ||| 0x10 else f3
  if l.ri then f4 ||| 0x20 else f4

/-- `raw_encapsulate` from `src/datalink.rs`: the data unchanged. -/
def raw_encapsulate (data : List Nat) : List Nat :=
  data

/-- `rtac_encapsulate` from `src/datalink.rs` lines 62-86: 4 bytes taken from
`timestamp().to_le_bytes()[..4]`, 4 bytes taken from
`timestamp_micros().to_le_bytes()[..4]`, the event-type byte 0x01, the
control-line flag byte, a two-byte zero footer, then the payload. -/
def rtac_encapsulate (new_state : SerialEvent) (_bus_name : String) : List Nat :=
  u32_le_bytes new_state.timestamp.timestamp ++
  u32_le_bytes new_state.timestamp.timestamp_micros ++
  [0x01] ++
  [control_flags new_state.control_lines] ++
  [0x00, 0x00] ++
  new_state.data

/-- The `pcap_file::DataLink` variants relevant to `get_encapsulated_data`:
the supported arms of its match, plus representative unsupported variants and
the `Unknown` carrier used by the library for unassigned codes. -/
inductive DataLink where
  | USER0 | USER1 | USER2 | USER3 | USER4 | USER5 | USER6 | USER7
  | USER8 | USER9 | USER10 | USER11 | USER12 | USER13 | USER14 | USER15
  | RAW
  | RTAC_SERIAL
  | NULL
  | ETHERNET
  | IPV4
  | IPV6
  | PPP
  | Unknown (code : Nat)
deriving DecidableEq, Repr

/-- Debug-format name of a `DataLink` value, as used by
`format!("{:?}", datalink)`. -/
def DataLink.debug_name : DataLink → String
  | .USER0 => "USER0" | .USER1 => "USER1" | .USER2 => "USER2" | .USER3 => "USER3"
  | .USER4 => "USER4" | .USER5 => "USER5" | .USER6 => "USER6" | .USER7 => "USER7"
  | .USER8 => "USER8" | .USER9 => "USER9" | .USER10 => "USER10" | .USER11 => "USER11"
  | .USER12 => "USER12" | .USER13 => "USER13" | .USER14 => "USER14" | .USER15 => "USER15"
  | .RAW => "RAW"
  | .RTAC_SERIAL => "RTAC_SERIAL"
  | .NULL => "NULL"
  | .ETHERNET => "ETHERNET"
  | .IPV4 => "IPV4"
  | .IPV6 => "IPV6"
  | .PPP => "PPP"
  | .Unknown code => "Unknown(" ++ toString code ++ ")"

/-- True exactly on the datalink types handled by the non-error arms of the
match in `get_encapsulated_data` (`src/datalink.rs` lines 88-103). -/
def DataLink.is_supported : DataLink → Bool
  | .USER0 | .USER1 | .USER2 | .USER3 | .USER4 | .USER5 | .USER6 | .USER7
  | .USER8 | .USER9 | .USER10 | .USER11 | .USER12 | .USER13 | .USER14 | .USER15
  | .RAW | .RTAC_SERIAL => true
  | _ => false

/-- `get_encapsulated_data` from `src/datalink.rs` lines 88-103: USER0-USER15
and RAW pass the payload through, RTAC_SERIAL adds the structured header, and
every other datalink type yields the unsupported-datalink error naming the
requested format. -/
def get_encapsulated_data (new_state : SerialEvent) (bus_name : String)
    (datalink : DataLink) : Except String (List Nat) :=
  match datalink with
  | .USER0 | .USER1 | .USER2 | .USER3 | .USER4 | .USER5 | .USER6 | .USER7
  | .USER8 | .USER9 | .USER10 | .USER11 | .USER12 | .USER13 | .USER14 | .USER15
  | .RAW => .ok (raw_encapsulate new_state.data)
  | .RTAC_SERIAL => .ok (rtac_encapsulate new_state bus_name)
  | other => .error ("Unsupported datalink type: " ++ other.debug_name)

/-! ## GPIO-augmented port (`SerialPortWrapper`, `src/portinfo.rs`) -/

/-- Mutable state of `SerialPortWrapper` relevant to control-line caching
(`src/portinfo.rs` lines 198-224): the last commanded RTS and DTR values. -/
structure SerialPortWrapper where
  last_set_rts : Option Bool
  last_set_dtr : Option Bool
deriving DecidableEq, Repr

/-- `SerialPortWrapper::new`: both caches start empty. -/
def SerialPortWrapper.new : SerialPortWrapper :=
  { last_set_rts := none, last_set_dtr := none }

/-- `SerialPortWrapper::write_request_to_send` (`src/portinfo.rs` lines
263-268): forward to the inner port, and only `and_then` the write succeeded
record the level in `last_set_rts`.  The inner port's outcome is the `hw`
parameter. -/
def SerialPortWrapper.write_request_to_send (s : SerialPortWrapper)
    (hw : Except String Unit) (level : Bool) : Except String Unit × SerialPortWrapper :=
  match hw with
  | .ok _ => (.ok (), { s with last_set_rts := some level })
  | .error e => (.error e, s)

/-- `SerialPortWrapper::write_data_terminal_ready` (`src/portinfo.rs` lines
269-274): forward to the inner port, and on success record the level in
`last_set_dtr`. -/
def SerialPortWrapper.write_data_terminal_ready (s : SerialPortWrapper)
    (hw : Except String Unit) (level : Bool) : Except String Unit × SerialPortWrapper :=
  match hw with
  | .ok _ => (.ok (), { s with last_set_dtr := some level })
  | .error e => (.error e, s)

/-- `SerialPortWrapper::read_request_to_send` (`src/portinfo.rs` lines
306-316): the source matches on `self.last_set_dtr` (not `last_set_rts`). -/
def SerialPortWrapper.read_request_to_send (s : SerialPortWrapper) : Except String Bool :=
  match s.last_set_dtr with
  | some level => .ok level
  | none => .error "Unknown value in Request To Send"

/-- `SerialPortWrapper::read_data_terminal_ready` (`src/portinfo.rs` lines
317-327): the source matches on `self.last_set_rts` (not `last_set_dtr`). -/
def SerialPortWrapper.read_data_terminal_ready (s : SerialPortWrapper) : Except String Bool :=
  match s.last_set_rts with
  | some level => .ok level
  | none => .error "Unknown value in Data Terminal Ready"

/-! ## Control-line capture (`src/portinfo.rs`) -/

/-- Rust `Result::unwrap_or`. -/
def unwrap_or (r : Except String Bool) (default : Bool) : Bool :=
  match r with
  | .ok v => v
  | .error _ => default

/-- `SerialReflectorPort::capture_control_lines` (`src/portinfo.rs` lines
121-131): read DSR, CTS, CD and RI from the port, each with `?` so a failure
escalates; DTR and RTS are filled with `false`.  The four read outcomes are
passed in explicitly. -/
def reflector_capture_control_lines (rdsr rcts rcd rri : Except String Bool) :
    Except String PortControlLines := do
  let dsr ← rdsr
  let cts ← rcts
  let cd ← rcd
  let ri ← rri
  return { dsr := dsr, cts := cts, cd := cd, ri := ri, dtr := false, rts := false }

/-- The blanket `SerialReflection::capture_control_lines` for
`AdvancedSerialPort` implementors (`src/portinfo.rs` lines 185-194): all six
reads are `unwrap_or(false)`, so the call never fails. -/
def advanced_capture_control_lines (rdsr rcts rcd rri rdtr rrts : Except String Bool) :
    Except String PortControlLines :=
  .ok { dsr := unwrap_or rdsr false
      , cts := unwrap_or rcts false
      , cd := unwrap_or rcd false
      , ri := unwrap_or rri false
      , dtr := unwrap_or rdtr false
      , rts := unwrap_or rrts false }

/-! ## Control-line reflection (`src/portinfo.rs`) -/

/-- The output lines a reflection call has driven on the destination port:
`none` means the line was not written. -/
structure DrivenLines where
  rts : Option Bool
  dtr : Option Bool
  ri : Option Bool
  cd : Option Bool
deriving DecidableEq, Repr

/-- Destination-port model for `reflect_control_lines`: the capability flags
of the `AdvancedSerialPort` and the hardware outcome each write would have. -/
structure ReflectPort where
  can_set_ring_indicator : Bool
  can_set_carrier_detect : Bool
  wr_dtr : Except String Unit
  wr_rts : Except String Unit
  wr_ri : Except String Unit
  wr_cd : Except String Unit
deriving Repr

/-- The ring-indicator arm of the blanket `reflect_control_lines`
(`src/portinfo.rs` lines 177-179): `set_ring_indicator(lines.ri)?` is issued
only when `can_set_ring_indicator()` holds, and its error escalates. -/
def drive_ri (p : ReflectPort) (lines : PortControlLines) (d : DrivenLines) :
    Except String Unit × DrivenLines :=
  if p.can_set_ring_indicator then
    match p.wr_ri with
    | .error e => (.error e, d)
    | .ok _ => (.ok (), { d with ri := some lines.ri })
  else (.ok (), d)

/-- The carrier-detect arm of the blanket `reflect_control_lines`
(`src/portinfo.rs` lines 180-182): `set_carrier_detect(lines.cd)?` is issued
only when `can_set_carrier_detect()` holds, and its error escalates. -/
def drive_cd (p : ReflectPort) (lines : PortControlLines) (d : DrivenLines) :
    Except String Unit × DrivenLines :=
  if p.can_set_carrier_detect then
    match p.wr_cd with
    | .error e => (.error e, d)
    | .ok _ => (.ok (), { d with cd := some lines.cd })
  else (.ok (), d)

/-- The blanket `SerialReflection::reflect_control_lines` for
`AdvancedSerialPort` implementors (`src/portinfo.rs` lines 173-184).  It first
runs `SerialReflectorPort::reflect_control_lines` (lines 116-120), i.e.
`write_data_terminal_ready(lines.dsr)?` then `write_request_to_send(lines.cts)`,
with `?` on the whole; then the conditional RI and CD drives, each with `?`.
Returned alongside the outcome is the record of lines actually driven. -/
def reflect_control_lines (p : ReflectPort) (lines : PortControlLines) :
    Except String Unit × DrivenLines :=
  match p.wr_dtr with
  | .error e => (.error e, { rts := none, dtr := none, ri := none, cd := none })
  | .ok _ =>
    match p.wr_rts with
    | .error e => (.error e, { rts := none, dtr := some lines.dsr, ri := none, cd := none })
    | .ok _ =>
      let d2 : DrivenLines :=
        { rts := some lines.cts, dtr := some lines.dsr, ri := none, cd := none }
      match drive_ri p lines d2 with
      | (.error e, d) => (.error e, d)
      | (.ok _, d) => drive_cd p lines d

/-! ## Frame assembly (`CaptureSerial::capture_packet`, `src/main.rs`) -/

/-- `MAX_PACKET_SIZE` from `src/main.rs`. -/
def MAX_PACKET_SIZE : Nat := 1024

/-- Result of one `capture_packet` call: the bytes returned, the bytes still
pending on the port, the unconsumed part of the read-granularity oracle, and
whether the loop ended by a read timing out (as opposed to the buffer
filling). -/
structure CaptureResult where
  packet : List Nat
  rest : List Nat
  oracle_rest : List Nat
  timed_out : Bool
deriving DecidableEq, Repr

/-- Number of bytes one OS `read` call hands over: at least one, at most the
number requested (`req`) and the number available (`avail_len`); the oracle's
head is the granularity the OS chose for this call (everything available when
the oracle is exhausted). -/
def read_len (oracle : List Nat) (req avail_len : Nat) : Nat :=
  min req (min (max (oracle.headD avail_len) 1) avail_len)

/-- The read-accumulate loop of `CaptureSerial::capture_packet`
(`src/main.rs` lines 97-124).  `avail` is the byte burst pending on the port
(delivered with no intervening idle gap, so a read times out only when it is
exhausted); `oracle` lists how many bytes the OS hands over per `read` call;
`acc` is `buffer[..bytes_read]`.  The loop continues while
`bytes_read < buffer.len()` and the read did not time out. -/
def capture_packet_go (avail oracle acc : List Nat) : CaptureResult :=
  if MAX_PACKET_SIZE ≤ acc.length then
    ⟨acc, avail, oracle, false⟩
  else
    match avail with
    | [] => ⟨acc, [], oracle, true⟩
    | a :: tl =>
      capture_packet_go
        ((a :: tl).drop (read_len oracle (MAX_PACKET_SIZE - acc.length) (a :: tl).length))
        oracle.tail
        (acc ++ (a :: tl).take (read_len oracle (MAX_PACKET_SIZE - acc.length) (a :: tl).length))
termination_by avail.length
decreasing_by
  simp only [List.length_drop, List.length_cons, read_len]
  omega

/-- `CaptureSerial::capture_packet`: run the read loop with an empty
accumulator. -/
def capture_packet (avail oracle : List Nat) : CaptureResult :=
  capture_packet_go avail oracle []

/-- The packet-producing iteration of `CaptureSerial::capture`
(`src/main.rs` lines 145-176) restricted to one finite burst: repeatedly call
`capture_packet` and collect the non-empty packets, stopping once the burst
is exhausted (an empty packet).  `fuel` bounds the number of loop iterations
examined; the loop itself runs forever, producing no further events from this
burst once it is exhausted. -/
def capture_session (fuel : Nat) (avail oracle : List Nat) : List (List Nat) :=
  match fuel with
  | 0 => []
  | f + 1 =>
    let r := capture_packet avail oracle
    if r.packet.isEmpty then [] else r.packet :: capture_session f r.rest r.oracle_rest

/-- Concatenation of the produced payloads, in order. -/
def join_all (ls : List (List Nat)) : List Nat :=
  ls.foldr (· ++ ·) []

end SerialPcap

namespace SerialPcap

/-! ## Helper lemmas for the frame assembler -/

theorem read_len_bounds (oracle : List Nat) (req avail_len : Nat)
    (hreq : 1 ≤ req) (hlen : 1 ≤ avail_len) :
    1 ≤ read_len oracle req avail_len ∧ read_len oracle req avail_len ≤ req ∧
      read_len oracle req avail_len ≤ avail_len := by
  unfold read_len
  omega

theorem capture_packet_go_spec (avail oracle acc : List Nat)
    (hacc : acc.length ≤ MAX_PACKET_SIZE) :
    (capture_packet_go avail oracle acc).packet
        = acc ++ avail.take (MAX_PACKET_SIZE - acc.length) ∧
    (capture_packet_go avail oracle acc).rest
        = avail.drop (MAX_PACKET_SIZE - acc.length) ∧
    (capture_packet_go avail oracle acc).timed_out
        = decide (acc.length + avail.length < MAX_PACKET_SIZE) := by
  revert hacc
  induction avail, oracle, acc using capture_packet_go.induct with
  | case1 avail oracle acc hfull =>
    intro hacc
    rw [capture_packet_go.eq_def]
    simp only [if_pos hfull]
    have hzero : MAX_PACKET_SIZE - acc.length = 0 := by omega
    refine ⟨?_, ?_, ?_⟩
    · simp [hzero]
    · simp [hzero]
    · exact (decide_eq_false (by omega)).symm
  | case2 oracle acc hfull =>
    intro hacc
    rw [capture_packet_go.eq_def]
    simp only [if_neg hfull]
    refine ⟨by simp, by simp, ?_⟩
    simp only [List.length_nil]
    exact (decide_eq_true (by omega)).symm
  | case3 oracle acc hfull a tl ih =>
    intro hacc
    have hb := read_len_bounds oracle (MAX_PACKET_SIZE - acc.length) (a :: tl).length
      (by omega) (by simp)
    obtain ⟨h1, h2, h3⟩ := hb
    rw [capture_packet_go.eq_def]
    simp only [if_neg hfull]
    have hlen_take :
        ((a :: tl).take (read_len oracle (MAX_PACKET_SIZE - acc.length) (a :: tl).length)).length
          = read_len oracle (MAX_PACKET_SIZE - acc.length) (a :: tl).length := by
      simp only [List.length_take]
      omega
    have hacc' :
        (acc ++ (a :: tl).take
            (read_len oracle (MAX_PACKET_SIZE - acc.length) (a :: tl).length)).length
          ≤ MAX_PACKET_SIZE := by
      simp only [List.length_append, hlen_take]
      omega
    obtain ⟨p1, p2, p3⟩ := ih hacc'
    refine ⟨?_, ?_, ?_⟩
    · rw [p1, List.append_assoc]
      congr 1
      have hm : MAX_PACKET_SIZE -
          (acc ++ (a :: tl).take
            (read_len oracle (MAX_PACKET_SIZE - acc.length) (a :: tl).length)).length
          = MAX_PACKET_SIZE - acc.length
            - read_len oracle (MAX_PACKET_SIZE - acc.length) (a :: tl).length := by
        simp only [List.length_append, hlen_take]
        omega
      rw [hm, ← List.take_add]
      congr 1
      omega
    · rw [p2, List.drop_drop]
      congr 1
      simp only [List.length_append, hlen_take]
      omega
    · rw [p3, decide_eq_decide]
      simp only [List.length_append, hlen_take, List.length_drop]
      omega

end SerialPcap

namespace SerialPcap

theorem capture_packet_spec (avail oracle : List Nat) :
    (capture_packet avail oracle).packet = avail.take MAX_PACKET_SIZE ∧
    (capture_packet avail oracle).rest = avail.drop MAX_PACKET_SIZE ∧
    (capture_packet avail oracle).timed_out = decide (avail.length < MAX_PACKET_SIZE) := by
  have h := capture_packet_go_spec avail oracle [] (by simp)
  simpa [capture_packet] using h

theorem ceil_div_succ (L : Nat) (h : 1 ≤ L) :
    (L + 1023) / 1024 = (L - 1024 + 1023) / 1024 + 1 := by
  rcases Nat.le_total L 1024 with hL | hL
  · have e1 : L - 1024 = 0 := by omega
    have e2 : L + 1023 = (L - 1) + 1024 := by omega
    have e3 : (L - 1) / 1024 = 0 := Nat.div_eq_of_lt (by omega)
    rw [e1, e2, Nat.add_div_right _ (by norm_num), e3]
  · have e2 : L + 1023 = (L - 1024 + 1023) + 1024 := by omega
    rw [e2, Nat.add_div_right _ (by norm_num)]

theorem capture_session_spec (fuel : Nat) :
    ∀ (avail oracle : List Nat),
      (avail.length + (MAX_PACKET_SIZE - 1)) / MAX_PACKET_SIZE ≤ fuel →
      join_all (capture_session fuel avail oracle) = avail ∧
      (capture_session fuel avail oracle).length =
        (avail.length + (MAX_PACKET_SIZE - 1)) / MAX_PACKET_SIZE ∧
      ∀ p ∈ capture_session fuel avail oracle, p.length ≤ MAX_PACKET_SIZE := by
  induction fuel with
  | zero =>
    intro avail oracle hfuel
    have hz : (avail.length + 1023) / 1024 = 0 := by
      simpa [MAX_PACKET_SIZE] using Nat.le_zero.mp hfuel
    have hlt : avail.length + 1023 < 1024 :=
      (Nat.div_eq_zero_iff (by norm_num)).mp hz
    have hav : avail = [] := List.length_eq_zero.mp (by omega)
    subst hav
    simp [capture_session, join_all, MAX_PACKET_SIZE]
  | succ f ih =>
    intro avail oracle hfuel
    obtain ⟨hp, hr, ht⟩ := capture_packet_spec avail oracle
    cases avail with
    | nil =>
      have hempty : (capture_packet [] oracle).packet = [] := by simp [hp]
      simp [capture_session, hempty, join_all, MAX_PACKET_SIZE]
    | cons a tl =>
      have hne : (capture_packet (a :: tl) oracle).packet ≠ [] := by
        rw [hp]
        simp [MAX_PACKET_SIZE]
      have hses : capture_session (f + 1) (a :: tl) oracle =
          (capture_packet (a :: tl) oracle).packet ::
            capture_session f (capture_packet (a :: tl) oracle).rest
              (capture_packet (a :: tl) oracle).oracle_rest := by
        rw [capture_session]
        simp [List.isEmpty_iff, hne]
      have hrl : (capture_packet (a :: tl) oracle).rest.length = (a :: tl).length - 1024 := by
        rw [hr]
        simp [MAX_PACKET_SIZE]
      have hceil : ((a :: tl).length + 1023) / 1024 =
          ((a :: tl).length - 1024 + 1023) / 1024 + 1 :=
        ceil_div_succ _ (by simp)
      have hfuel' : ((capture_packet (a :: tl) oracle).rest.length
            + (MAX_PACKET_SIZE - 1)) / MAX_PACKET_SIZE ≤ f := by
        rw [hrl]
        simp only [MAX_PACKET_SIZE] at hfuel ⊢
        omega
      obtain ⟨ihj, ihl, ihm⟩ := ih _ (capture_packet (a :: tl) oracle).oracle_rest hfuel'
      refine ⟨?_, ?_, ?_⟩
      · rw [hses]
        simp only [join_all, List.foldr_cons] at ihj ⊢
        rw [ihj, hp, hr, List.take_append_drop]
      · rw [hses]
        simp only [List.length_cons, ihl, hrl]
        simp only [MAX_PACKET_SIZE]
        omega
      · rw [hses]
        intro p hpmem
        rcases List.mem_cons.mp hpmem with hcase | hcase
        · subst hcase
          rw [hp]
          simp [MAX_PACKET_SIZE]
        · exact ihm p hcase

end SerialPcap

namespace SerialPcap

/-! ## Claim theorems -/

/-- C1: the capture loop in `CaptureSerial::capture` forwards a captured
packet exactly when its payload is non-empty, never consulting control lines;
in particular an event with empty payload and a *changed* control-line
snapshot — significant by the repository's own
`SerialEvent::is_insignificant` predicate — is dropped, contradicting the
specified suppression rule. -/
theorem capture_loop_drops_empty_payload_changed_lines :
    capture_forwards [] = false ∧
    SerialEvent.is_insignificant
      { timestamp := ⟨0, 0⟩, data := [],
        control_lines := { PortControlLines.new with cts := true } }
      PortControlLines.new = false := by
  exact ⟨rfl, by decide⟩

/-- C2: at the event timestamped 1 second and 0 microseconds after epoch,
`rtac_encapsulate` fills bytes 4-7 with the little-endian low 32 bits of the
*total* microseconds since epoch (1000000 → 40 42 0F 00), not with the
microsecond-of-second component (0 → 00 00 00 00) required by the
LINKTYPE_RTAC_SERIAL layout the code cites; bytes 0-3, 8 and 10-11 match the
specified layout. -/
theorem rtac_micros_field_divergence :
    rtac_encapsulate
        { timestamp := ⟨1, 0⟩, data := [], control_lines := PortControlLines.new } "serial" =
      [0x01, 0x00, 0x00, 0x00, 0x40, 0x42, 0x0F, 0x00, 0x01, 0x00, 0x00, 0x00] ∧
    u32_le_bytes (Timestamp.timestamp_micros ⟨1, 0⟩) = [0x40, 0x42, 0x0F, 0x00] ∧
    u32_le_bytes (Timestamp.usec ⟨1, 0⟩) = [0x00, 0x00, 0x00, 0x00] := by
  refine ⟨?_, ?_, ?_⟩ <;> decide

/-- C3: byte 9 of every StructuredSerial (RTAC_SERIAL) encoding is the
control-line bitmask with bit0 = CTS, bit1 = CD, bit2 = DSR, bit3 = RTS,
bit4 = DTR, bit5 = RI and bits 6-7 zero (the flag byte is always below 64);
the snapshot with only CTS and RTS set encodes to 0x09. -/
theorem rtac_byte9_control_bitmask (e : SerialEvent) (bus : String) :
    (rtac_encapsulate e bus).get? 9 = some (control_flags e.control_lines) ∧
    (∀ l : PortControlLines,
      control_flags l =
        (if l.cts then 1 else 0) + (if l.cd then 2 else 0) + (if l.dsr then 4 else 0) +
          (if l.rts then 8 else 0) + (if l.dtr then 16 else 0) + (if l.ri then 32 else 0) ∧
      control_flags l < 64) ∧
    control_flags
      { dsr := false, cts := true, cd := false, ri := false, dtr := false, rts := true }
      = 0x09 := by
  refine ⟨rfl, ?_, by decide⟩
  intro l
  obtain ⟨dsr, cts, cd, ri, dtr, rts⟩ := l
  cases dsr <;> cases cts <;> cases cd <;> cases ri <;> cases dtr <;> cases rts <;> decide

/-- C4: for a byte burst delivered with no intervening idle gap and longer
than `MAX_PACKET_SIZE`, the frame assembler produces
⌈length / MAX_PACKET_SIZE⌉ events, each payload at most `MAX_PACKET_SIZE`
bytes, whose in-order concatenation reproduces the burst exactly; and a
packet whose accumulator reaches `MAX_PACKET_SIZE` is finalized without the
read loop waiting for a timeout.  `oracle` ranges over every possible
per-read delivery granularity the OS may choose, and `fuel` over any number
of capture-loop iterations sufficient to consume the burst. -/
theorem frame_assembler_chunking (avail oracle : List Nat) (fuel : Nat)
    (hlen : MAX_PACKET_SIZE < avail.length)
    (hfuel : (avail.length + (MAX_PACKET_SIZE - 1)) / MAX_PACKET_SIZE ≤ fuel) :
    (capture_session fuel avail oracle).length =
      (avail.length + (MAX_PACKET_SIZE - 1)) / MAX_PACKET_SIZE ∧
    (∀ p ∈ capture_session fuel avail oracle, p.length ≤ MAX_PACKET_SIZE) ∧
    join_all (capture_session fuel avail oracle) = avail ∧
    (capture_packet avail oracle).timed_out = false := by
  obtain ⟨hj, hl, hm⟩ := capture_session_spec fuel avail oracle hfuel
  refine ⟨hl, hm, hj, ?_⟩
  rw [(capture_packet_spec avail oracle).2.2]
  exact decide_eq_false (by omega)

/-- Witness for C4: a 2500-byte burst yields ⌈2500/1024⌉ = 3 events that
concatenate back to the burst, and the first packet is finalized without a
timeout. -/
theorem frame_assembler_chunking_witness :
    MAX_PACKET_SIZE < (List.replicate 2500 7).length ∧
    ((List.replicate 2500 7).length + (MAX_PACKET_SIZE - 1)) / MAX_PACKET_SIZE ≤ 3 ∧
    ((capture_session 3 (List.replicate 2500 7) []).length =
        ((List.replicate 2500 7).length + (MAX_PACKET_SIZE - 1)) / MAX_PACKET_SIZE ∧
      (∀ p ∈ capture_session 3 (List.replicate 2500 7) [], p.length ≤ MAX_PACKET_SIZE) ∧
      join_all (capture_session 3 (List.replicate 2500 7) []) = List.replicate 2500 7 ∧
      (capture_packet (List.replicate 2500 7) []).timed_out = false) := by
  have hlen : (List.replicate 2500 7).length = 2500 := List.length_replicate 2500 7
  refine ⟨?_, ?_, frame_assembler_chunking _ _ 3 ?_ ?_⟩ <;>
    rw [hlen] <;> norm_num [MAX_PACKET_SIZE]

/-- C5: on a fresh GPIO-augmented wrapper, commanding RTS to true and then
reading RTS back yields an error — `read_request_to_send` consults
`last_set_dtr` instead of `last_set_rts` — while reading DTR back (a line
never commanded) wrongly yields the commanded RTS value; the claimed
read-back of the last commanded value of the *same* line fails. -/
theorem wrapper_rts_readback_crosswired :
    (SerialPortWrapper.new.write_request_to_send (.ok ()) true).2.read_request_to_send =
      .error "Unknown value in Request To Send" ∧
    (SerialPortWrapper.new.write_request_to_send (.ok ()) true).2.read_data_terminal_ready =
      .ok true := by
  exact ⟨rfl, rfl⟩

/-- C6 counterexample: `SerialReflectorPort::capture_control_lines` escalates
a failed DSR read with `?` instead of substituting false, so capturing the
control-line state is not error-free for every port. -/
theorem reflector_capture_error_escalates :
    reflector_capture_control_lines (.error "hardware read failed") (.ok false) (.ok false)
      (.ok false) = .error "hardware read failed" := rfl

/-- C6 amended: capture through the blanket `AdvancedSerialPort`
implementation always returns a fully populated snapshot, each unreadable
line defaulting to false, and never errors; the plain `SerialReflectorPort`
capture fixes DTR and RTS to false, but a failure of any of its four hardware
reads (DSR, CTS, CD, RI) escalates to the caller. -/
theorem capture_control_lines_policy (rdsr rcts rcd rri rdtr rrts : Except String Bool) :
    advanced_capture_control_lines rdsr rcts rcd rri rdtr rrts =
      .ok { dsr := unwrap_or rdsr false, cts := unwrap_or rcts false,
            cd := unwrap_or rcd false, ri := unwrap_or rri false,
            dtr := unwrap_or rdtr false, rts := unwrap_or rrts false } ∧
    (∀ a b c d : Bool,
      reflector_capture_control_lines (.ok a) (.ok b) (.ok c) (.ok d) =
        .ok { dsr := a, cts := b, cd := c, ri := d, dtr := false, rts := false }) ∧
    (∀ msg, reflector_capture_control_lines (.error msg) rcts rcd rri = .error msg) ∧
    (∀ a msg, reflector_capture_control_lines (.ok a) (.error msg) rcd rri = .error msg) ∧
    (∀ a b msg,
      reflector_capture_control_lines (.ok a) (.ok b) (.error msg) rri = .error msg) ∧
    (∀ a b c msg,
      reflector_capture_control_lines (.ok a) (.ok b) (.ok c) (.error msg) = .error msg) := by
  exact ⟨rfl, fun a b c d => rfl, fun msg => rfl, fun a msg => rfl, fun a b msg => rfl,
    fun a b c msg => rfl⟩

/-- C7 counterexample: reflecting a source snapshot with RTS true (and CTS
false) drives the destination's RTS output — the line its counterpart sees
as CTS — to false, not true: the reflection reads the source's CTS, not its
RTS, so the claimed wiring fails at the spec's own example. -/
theorem reflect_ignores_source_rts :
    (reflect_control_lines ⟨false, false, .ok (), .ok (), .ok (), .ok ()⟩
        { dsr := false, cts := false, cd := false, ri := false, dtr := false, rts := true }).2 =
      { rts := some false, dtr := some false, ri := none, cd := none } ∧
    (reflect_control_lines ⟨false, false, .ok (), .ok (), .ok (), .ok ()⟩
        { dsr := false, cts := false, cd := false, ri := false, dtr := false, rts := true }).2.rts
      ≠ some true := by
  exact ⟨rfl, by decide⟩

/-- C7 amended: when every hardware write succeeds, reflection drives the
destination's RTS output with the source's CTS and the destination's DTR
output with the source's DSR (pass-through of the lines the source observed),
and drives RI and CD only when the destination's capability flags report a
GPIO-backed output for them. -/
theorem reflect_wiring (p : ReflectPort) (lines : PortControlLines)
    (hdtr : p.wr_dtr = .ok ()) (hrts : p.wr_rts = .ok ())
    (hri : p.wr_ri = .ok ()) (hcd : p.wr_cd = .ok ()) :
    reflect_control_lines p lines =
      (.ok (), { rts := some lines.cts, dtr := some lines.dsr,
                 ri := if p.can_set_ring_indicator then some lines.ri else none,
                 cd := if p.can_set_carrier_detect then some lines.cd else none }) := by
  simp only [reflect_control_lines, hdtr, hrts, drive_ri, drive_cd, hri, hcd]
  cases hcri : p.can_set_ring_indicator <;> cases hccd : p.can_set_carrier_detect <;>
    simp [hcri, hccd]

/-- Witness for C7: a destination with a GPIO-backed RI output and no CD
output, reflecting a source snapshot with CTS and RI high. -/
theorem reflect_wiring_witness :
    reflect_control_lines ⟨true, false, .ok (), .ok (), .ok (), .ok ()⟩
        { dsr := false, cts := true, cd := true, ri := true, dtr := false, rts := false } =
      (.ok (), { rts := some true, dtr := some false, ri := some true, cd := none }) := by
  exact reflect_wiring _ _ rfl rfl rfl rfl

/-- C8 counterexample: with a GPIO-backed RI output whose write fails, the
blanket `reflect_control_lines` returns that error — the non-critical RI
failure aborts the call instead of being recovered locally. -/
theorem reflect_ri_failure_aborts :
    (reflect_control_lines
        ⟨true, false, .ok (), .ok (), .error "Failed to set Ring Indicator", .ok ()⟩
        PortControlLines.new).1 = .error "Failed to set Ring Indicator" := rfl

/-- C8 amended: `reflect_control_lines` escalates failures in call order: a
primary-line (DTR-then-RTS mirror) write failure is returned before any RI/CD
drive is attempted; an RI or CD drive failure — attempted only when the
corresponding capability flag is set — also aborts the call with that error,
though by then the primary lines have already been driven. -/
theorem reflect_error_escalation (p : ReflectPort) (lines : PortControlLines) :
    (∀ e, p.wr_dtr = .error e →
      reflect_control_lines p lines =
        (.error e, { rts := none, dtr := none, ri := none, cd := none })) ∧
    (∀ e, p.wr_dtr = .ok () → p.wr_rts = .error e →
      reflect_control_lines p lines =
        (.error e, { rts := none, dtr := some lines.dsr, ri := none, cd := none })) ∧
    (∀ e, p.wr_dtr = .ok () → p.wr_rts = .ok () → p.can_set_ring_indicator = true →
      p.wr_ri = .error e →
      reflect_control_lines p lines =
        (.error e, { rts := some lines.cts, dtr := some lines.dsr, ri := none, cd := none })) ∧
    (∀ e, p.wr_dtr = .ok () → p.wr_rts = .ok () → p.can_set_ring_indicator = false →
      p.can_set_carrier_detect = true → p.wr_cd = .error e →
      reflect_control_lines p lines =
        (.error e, { rts := some lines.cts, dtr := some lines.dsr, ri := none, cd := none })) := by
  refine ⟨?_, ?_, ?_, ?_⟩
  · intro e he
    simp [reflect_control_lines, he]
  · intro e h1 h2
    simp [reflect_control_lines, h1, h2]
  · intro e h1 h2 h3 h4
    simp [reflect_control_lines, drive_ri, h1, h2, h3, h4]
  · intro e h1 h2 h3 h4 h5
    simp [reflect_control_lines, drive_ri, drive_cd, h1, h2, h3, h4, h5]

/-- Witness for C8: primary writes succeed, the RI GPIO write fails, and the
call returns the RI error with the primary lines already driven. -/
theorem reflect_error_escalation_witness :
    reflect_control_lines
        ⟨true, false, .ok (), .ok (), .error "Failed to set Ring Indicator", .ok ()⟩
        PortControlLines.new =
      (.error "Failed to set Ring Indicator",
        { rts := some false, dtr := some false, ri := none, cd := none }) := by
  exact (reflect_error_escalation _ _).2.2.1 "Failed to set Ring Indicator" rfl rfl rfl rfl

/-- C9: for every event and every datalink type outside the supported set
(USER0-USER15, RAW, RTAC_SERIAL), `get_encapsulated_data` fails with the
unsupported-datalink error naming the requested format; the check is a match
performed on every call, i.e. each time an event is encoded. -/
theorem unsupported_encapsulation_error (e : SerialEvent) (bus : String) (d : DataLink)
    (h : d.is_supported = false) :
    get_encapsulated_data e bus d =
      .error ("Unsupported datalink type: " ++ d.debug_name) := by
  cases d <;> first
    | rfl
    | exact absurd h (by decide)

/-- Witness for C9: encoding any event as ETHERNET fails with the error
naming ETHERNET. -/
theorem unsupported_encapsulation_error_witness :
    DataLink.is_supported .ETHERNET = false ∧
    get_encapsulated_data
        { timestamp := ⟨0, 0⟩, data := [0x41], control_lines := PortControlLines.new }
        "serial" .ETHERNET = .error "Unsupported datalink type: ETHERNET" := by
  exact ⟨rfl, unsupported_encapsulation_error _ _ _ rfl⟩

/-- C10: commanding RTS (resp. DTR) on the GPIO-augmented wrapper records the
level in `last_set_rts` (resp. `last_set_dtr`) exactly when the underlying
hardware write succeeds, leaving the other cache untouched; when the
hardware write fails, the whole cached state is unchanged. -/
theorem wrapper_cache_update_atomic (s : SerialPortWrapper) (level : Bool) (e : String) :
    (s.write_request_to_send (.ok ()) level).2 = { s with last_set_rts := some level } ∧
    (s.write_request_to_send (.error e) level).2 = s ∧
    (s.write_data_terminal_ready (.ok ()) level).2 = { s with last_set_dtr := some level } ∧
    (s.write_data_terminal_ready (.error e) level).2 = s := by
  exact ⟨rfl, rfl, rfl, rfl⟩

end SerialPcap
